import Mathlib

/-!
Shallow embedding of the repository, a single Jupyter
notebook (examples/QuantinuumExample.ipynb) that submits a Bell-state
circuit to a Quantinuum backend via the Qiskit Quantinuum provider,
checks job status, fetches results, and saves the counts to a JSON
file.  The notebook code cells are embedded as a list of statements;
recorded cell outputs (the circuit drawing, the job status, the job
id, the counts) are embedded as constants.
-/

namespace QuantinuumNotebook

/-- A counts mapping, as returned by result.get_counts(): keys in
insertion order, each key a measured output string with its observed
count.  Models a Python dict of str to int. -/
abbrev Counts := List (String × Nat)

/-- JSON serialization of a counts dict, mirroring json.dump with its
default separators: comma-space between items, colon-space after each
key.  The recorded keys need no JSON escaping. -/
def jsonOfCounts (c : Counts) : String :=
  "\x7b" ++
    String.intercalate ", "
      (c.map (fun p => "\"" ++ p.1 ++ "\": " ++ toString p.2)) ++
  "\x7d"

/-- Recorded output of result.get_counts() in the notebook. -/
def recordedCounts : Counts := [("11", 52), ("0", 47), ("1", 1)]

/-- A result object returned by job.result(): the notebook reads its
job_id and success attributes and calls get_counts() on it. -/
structure ResultObj where
  job_id : String
  success : Bool
  counts : Counts
deriving DecidableEq

/-- Accessor mirroring result.get_counts(). -/
def ResultObj.get_counts (r : ResultObj) : Counts := r.counts

/-- The result recorded in the notebook outputs: job id and success
flag from the result cell, counts from the counting cell. -/
def recordedResult : ResultObj :=
  { job_id := "f151861654594c8fb718541dede4476d"
    success := true
    counts := recordedCounts }

/-- File name built by the saving cell via the f-string
results_ plus result.job_id plus .json. -/
def resultsFileName (r : ResultObj) : String :=
  "results_" ++ r.job_id ++ ".json"

/-- Recorded output of the job.status() cell. -/
def recordedJobStatus : String := "DONE"

/-- Recorded status message of the job.status() cell. -/
def recordedJobStatusMsg : String := "job has successfully run"

/-- Circuit operations appearing in the constructed circuit. -/
inductive CircOp
  | h (q : Nat)
  | cx (control target : Nat)
  | barrier
  | measure (q : Nat) (creg : String) (c : Nat)
deriving DecidableEq

/-- A quantum circuit: qubit count, classical registers as
name-size pairs, a name, and the operation list. -/
structure Circuit where
  numQubits : Nat
  cregs : List (String × Nat)
  name : String
  ops : List CircOp
deriving DecidableEq

/-- Total number of classical bits over all classical registers. -/
def Circuit.numClbits (qc : Circuit) : Nat :=
  (qc.cregs.map (fun p => p.2)).sum

/-- QuantumCircuit(nq, nc, name): nq qubits, one classical register
named c of size nc, no operations yet. -/
def QuantumCircuit (nq nc : Nat) (nm : String) : Circuit :=
  { numQubits := nq, cregs := [("c", nc)], name := nm, ops := [] }

/-- circuit.h(q): append a Hadamard gate on qubit q. -/
def Circuit.h (qc : Circuit) (q : Nat) : Circuit :=
  { qc with ops := qc.ops ++ [CircOp.h q] }

/-- circuit.cx(c, t): append a CX gate with the given control and
target qubits. -/
def Circuit.cx (qc : Circuit) (c t : Nat) : Circuit :=
  { qc with ops := qc.ops ++ [CircOp.cx c t] }

/-- circuit.measure_all(): as shown by the recorded circuit drawing in
the notebook, this appends a barrier, adds a new classical register
named meas with one bit per qubit, and measures each qubit into the
corresponding meas bit. -/
def Circuit.measure_all (qc : Circuit) : Circuit :=
  { qc with
    cregs := qc.cregs ++ [("meas", qc.numQubits)]
    ops := qc.ops ++ [CircOp.barrier] ++
      (List.range qc.numQubits).map (fun q => CircOp.measure q "meas" q) }

/-- Value of the n_qubits variable in the circuit cell. -/
def n_qubits : Nat := 2

/-- The circuit the notebook builds: QuantumCircuit(2, 2, Bell Test),
then h(0), cx(0, 1), measure_all(). -/
def bellCircuit : Circuit :=
  (((QuantumCircuit n_qubits n_qubits "Bell Test").h 0).cx 0 1).measure_all

/-- File open modes used by the model of the saving cell. -/
inductive OpenMode
  | w
  | a
deriving DecidableEq

/-- Which job object a statement acts on: the job returned by execute,
or the job fetched by backend.retrieve_job in the past-jobs cell. -/
inductive JobRef
  | submitted
  | retrieved
deriving DecidableEq

/-- Statements of the notebook code cells.  Constructors exist for
try/except, loops, conditionals and environment-variable reads so
that their absence from the embedded cells is a checkable property,
not a tautology of the type. -/
inductive Stmt
  | importMods (mods : List String)
  | saveAccount (userName : String)
  | loadAccount
  | listBackends
  | assignStr (v : String) (val : String)
  | assignNat (v : String) (val : Nat)
  | getBackend (device : String)
  | backendStatus
  | printOut (what : String)
  | buildCircuit (qc : Circuit)
  | drawCircuit
  | executeCircuit (shots : Nat)
  | jobStatus (j : JobRef)
  | jobResult (j : JobRef)
  | getCounts (j : JobRef)
  | plotHistogram
  | saveResultsJson (mode : OpenMode)
  | retrieveJob (jobId : String)
  | tryExcept
  | forLoop
  | whileLoop
  | ifStmt
  | readEnvVar (varName : String)
deriving DecidableEq

/-- The notebook code cells, in document order, each cell a list of
statements. -/
def notebookCells : List (List Stmt) :=
  [ [Stmt.importMods ["numpy", "qiskit", "qiskit_quantinuum",
       "qiskit.visualization"]],
    [Stmt.saveAccount "first.last@company.com", Stmt.loadAccount],
    [Stmt.listBackends],
    [Stmt.assignStr "device" "H1-2E", Stmt.getBackend "H1-2E",
     Stmt.backendStatus, Stmt.printOut "device status"],
    [Stmt.assignNat "n_qubits" 2, Stmt.buildCircuit bellCircuit,
     Stmt.drawCircuit],
    [Stmt.assignNat "shots" 100, Stmt.executeCircuit 100],
    [Stmt.jobStatus JobRef.submitted],
    [Stmt.jobResult JobRef.submitted, Stmt.printOut "job id and success"],
    [Stmt.getCounts JobRef.submitted, Stmt.printOut "counts"],
    [Stmt.plotHistogram],
    [Stmt.importMods ["json"], Stmt.saveResultsJson OpenMode.w],
    [Stmt.assignStr "device" "H1-2E", Stmt.assignStr "job_id" "insert job id",
     Stmt.getBackend "H1-2E", Stmt.retrieveJob "insert job id",
     Stmt.jobResult JobRef.retrieved, Stmt.getCounts JobRef.retrieved,
     Stmt.printOut "counts"] ]

/-- All statements of the notebook, top to bottom. -/
def notebookStmts : List Stmt := notebookCells.flatten

/-- The statements of the main workflow, i.e. every cell up to and
including the saving cell (all cells except the past-jobs cell). -/
def mainStmts : List Stmt := (notebookCells.take 11).flatten

/-- The file system: a map from file names to contents. -/
def FS := String → Option String

/-- Open a file in the given mode and dump contents into it: mode w
truncates and replaces, mode a appends to the existing contents. -/
def openDump (mode : OpenMode) (nm content : String) (fs : FS) : FS :=
  fun k =>
    if k = nm then
      match mode with
      | OpenMode.w => some content
      | OpenMode.a => some (((fs nm).getD "") ++ content)
    else fs k

/-- File-system effect of a statement.  Only the saving cell touches
the file system: it opens results_ plus job_id plus .json in its
recorded mode and dumps json of result.get_counts(). -/
def Stmt.runFS (r : ResultObj) (s : Stmt) (fs : FS) : FS :=
  match s with
  | Stmt.saveResultsJson mode =>
      openDump mode (resultsFileName r) (jsonOfCounts (ResultObj.get_counts r)) fs
  | _ => fs

/-- File system after running the whole notebook, given the result
object the run produced and the initial file system. -/
def runNotebookFS (r : ResultObj) (fs : FS) : FS :=
  notebookStmts.foldl (fun a s => Stmt.runFS r s a) fs

/-- Whether a statement writes to the file system. -/
def Stmt.writesFS : Stmt → Bool
  | Stmt.saveResultsJson _ => true
  | _ => false

/-- Whether a statement is a try/except handler, a loop, or a
conditional. -/
def Stmt.isHandlerOrBranch : Stmt → Bool
  | Stmt.tryExcept => true
  | Stmt.forLoop => true
  | Stmt.whileLoop => true
  | Stmt.ifStmt => true
  | _ => false

/-- Environment variables a statement reads directly. -/
def Stmt.envReads : Stmt → List String
  | Stmt.readEnvVar v => [v]
  | _ => []

/-- The values a statement observes from the environment: only an
explicit readEnvVar statement observes anything. -/
def Stmt.envObs (env : String → Option String) (s : Stmt) : List (Option String) :=
  (Stmt.envReads s).map env

/-- Everything the notebook code itself observes from the process
environment, cell by cell. -/
def notebookEnvTrace (env : String → Option String) : List (List (Option String)) :=
  notebookStmts.map (Stmt.envObs env)

/-- Run the statements with a failure oracle that gives, per statement
index, the exception that statement raises (none means it succeeds).
A raised exception aborts the run with that exception unless the
statement is guarded, which only a tryExcept statement does; there is
no other control flow. -/
def runStmts (oracle : Nat → Option String) : Nat → List Stmt → Except String Unit
  | _, [] => Except.ok ()
  | i, s :: rest =>
    if s = Stmt.tryExcept then runStmts oracle (i + 1) rest
    else
      match oracle i with
      | some e => Except.error e
      | none => runStmts oracle (i + 1) rest

/-- The steps named by the specification. -/
inductive SpecStep
  | credentialSave
  | credentialLoad
  | backendDiscovery
  | backendStatusCheck
  | circuitConstruction
  | circuitSubmission
  | jobStatusQuery
  | resultRetrieval
  | resultCounting
  | plotting
  | resultPersistence
deriving DecidableEq

/-- Classification of a statement as one of the steps the
specification names, if any. -/
def Stmt.specStep : Stmt → Option SpecStep
  | Stmt.saveAccount _ => some SpecStep.credentialSave
  | Stmt.loadAccount => some SpecStep.credentialLoad
  | Stmt.listBackends => some SpecStep.backendDiscovery
  | Stmt.backendStatus => some SpecStep.backendStatusCheck
  | Stmt.buildCircuit _ => some SpecStep.circuitConstruction
  | Stmt.executeCircuit _ => some SpecStep.circuitSubmission
  | Stmt.jobStatus _ => some SpecStep.jobStatusQuery
  | Stmt.jobResult _ => some SpecStep.resultRetrieval
  | Stmt.getCounts _ => some SpecStep.resultCounting
  | Stmt.plotHistogram => some SpecStep.plotting
  | Stmt.saveResultsJson _ => some SpecStep.resultPersistence
  | _ => none

/-- The step order the specification states. -/
def specOrder : List SpecStep :=
  [SpecStep.credentialSave, SpecStep.credentialLoad,
   SpecStep.backendDiscovery, SpecStep.backendStatusCheck,
   SpecStep.circuitConstruction, SpecStep.circuitSubmission,
   SpecStep.jobStatusQuery, SpecStep.resultRetrieval,
   SpecStep.resultCounting, SpecStep.plotting,
   SpecStep.resultPersistence]

/-- Step sequence of the full notebook, top to bottom. -/
def notebookSteps : List SpecStep := notebookStmts.filterMap Stmt.specStep

/-- Step sequence of the main workflow cells. -/
def mainSteps : List SpecStep := mainStmts.filterMap Stmt.specStep

/-- An empty file system, used as a concrete starting point. -/
def fs0 : FS := fun _ => none

/-- A file system on which the results file of the recorded run
already exists with stale contents. -/
def fs1 : FS :=
  fun k => if k = resultsFileName recordedResult then some "stale" else none

/-- A failure oracle making the very first statement raise. -/
def oracle0 : Nat → Option String :=
  fun i => if i = 0 then some "RequestsApiError" else none

/-- Helper: over a statement list with no tryExcept, the first
exception the oracle makes a statement raise aborts the run with
exactly that exception. -/
theorem runStmts_error_of_first_fail (oracle : Nat → Option String) :
    ∀ (l : List Stmt), (∀ s ∈ l, s ≠ Stmt.tryExcept) →
    ∀ (i k : Nat) (e : String), k < l.length →
      (∀ j, j < k → oracle (i + j) = none) → oracle (i + k) = some e →
      runStmts oracle i l = Except.error e := by
  intro l
  induction l with
  | nil =>
    intro _ i k e hk
    exact absurd hk (by simp)
  | cons s rest ih =>
    intro hl i k e hk hpre hfail
    have hs : s ≠ Stmt.tryExcept := hl s (List.mem_cons_self s rest)
    rw [runStmts, if_neg hs]
    cases k with
    | zero =>
      rw [Nat.add_zero] at hfail
      rw [hfail]
    | succ k =>
      have h0 : oracle i = none := by
        have := hpre 0 (Nat.succ_pos k)
        rwa [Nat.add_zero] at this
      rw [h0]
      refine ih (fun t ht => hl t (List.mem_cons_of_mem s ht)) (i + 1) k e
        (Nat.lt_of_succ_lt_succ (by simpa using hk)) ?_ ?_
      · intro j hj
        have := hpre (j + 1) (Nat.succ_lt_succ hj)
        rwa [show i + (j + 1) = i + 1 + j by omega] at this
      · rwa [show i + (k + 1) = i + 1 + k by omega] at hfail

/-- C1: the saving step writes exactly one file, named
results_ plus job_id plus .json from the result object, whose content
is exactly the JSON dump of result.get_counts(); every other file is
left untouched. -/
theorem c1_saving_writes_single_counts_file (r : ResultObj) (fs : FS) :
    runNotebookFS r fs (resultsFileName r)
        = some (jsonOfCounts (ResultObj.get_counts r)) ∧
    ∀ nm : String, nm ≠ resultsFileName r → runNotebookFS r fs nm = fs nm := by
  constructor
  · show openDump OpenMode.w (resultsFileName r)
      (jsonOfCounts (ResultObj.get_counts r)) fs (resultsFileName r) = _
    simp [openDump]
  · intro nm hnm
    show openDump OpenMode.w (resultsFileName r)
      (jsonOfCounts (ResultObj.get_counts r)) fs nm = fs nm
    simp [openDump, hnm]

/-- Witness for C1 at the recorded result and an empty file system. -/
theorem c1_saving_writes_single_counts_file_witness :
    runNotebookFS recordedResult fs0 (resultsFileName recordedResult)
        = some (jsonOfCounts (ResultObj.get_counts recordedResult)) ∧
    runNotebookFS recordedResult fs0 "other.json" = fs0 "other.json" :=
  ⟨(c1_saving_writes_single_counts_file recordedResult fs0).1,
   (c1_saving_writes_single_counts_file recordedResult fs0).2 "other.json"
     (by decide)⟩

/-- C2: the claim that every serialized counts key is a length-2
bitstring fails on the recorded run, and the notebook itself flags the
bug: the recorded counts carry the key 0 of length 1, and it is dumped
verbatim into the results JSON. -/
theorem c2_recorded_counts_key_not_two_bits :
    ("0", 47) ∈ ResultObj.get_counts recordedResult ∧
    ¬ (∀ p ∈ ResultObj.get_counts recordedResult, p.1.length = 2) ∧
    jsonOfCounts (ResultObj.get_counts recordedResult)
      = "\x7b\"11\": 52, \"0\": 47, \"1\": 1\x7d" := by
  decide

/-- C3 as stated is false: executed top to bottom, the notebook does
repeat steps, because the past-jobs cell after the saving cell runs
result retrieval and result counting a second time. -/
theorem c3_counterexample :
    notebookSteps.count SpecStep.resultRetrieval = 2 ∧
    notebookSteps ≠ specOrder := by
  decide

/-- C3 amended: through the saving cell the steps occur in exactly the
order the spec states, with none reordered, repeated, or skipped, and
with no branching or looping statement anywhere; the trailing
past-jobs cell then repeats result retrieval and result counting. -/
theorem c3_amended_step_order :
    mainSteps = specOrder ∧
    notebookSteps
      = specOrder ++ [SpecStep.resultRetrieval, SpecStep.resultCounting] ∧
    notebookStmts.all (fun s => !Stmt.isHandlerOrBranch s) = true := by
  decide

/-- C4: the notebook contains no try/except, loop, or conditional, and
under any failure oracle the first exception a statement raises aborts
the run as exactly that exception, uncaught and untranslated. -/
theorem c4_exceptions_propagate :
    notebookStmts.all (fun s => !Stmt.isHandlerOrBranch s) = true ∧
    ∀ (oracle : Nat → Option String) (k : Nat) (e : String),
      k < notebookStmts.length →
      (∀ j, j < k → oracle j = none) → oracle k = some e →
      runStmts oracle 0 notebookStmts = Except.error e := by
  refine ⟨by decide, ?_⟩
  intro oracle k e hk hpre hfail
  refine runStmts_error_of_first_fail oracle notebookStmts (by decide) 0 k e hk
    ?_ ?_
  · intro j hj
    rw [Nat.zero_add]
    exact hpre j hj
  · rwa [Nat.zero_add]

/-- Witness for C4: a failure at the very first statement aborts the
whole run with that exception. -/
theorem c4_exceptions_propagate_witness :
    notebookStmts.all (fun s => !Stmt.isHandlerOrBranch s) = true ∧
    runStmts oracle0 0 notebookStmts = Except.error "RequestsApiError" :=
  ⟨c4_exceptions_propagate.1,
   c4_exceptions_propagate.2 oracle0 0 "RequestsApiError" (by decide)
     (fun j hj => absurd hj (Nat.not_lt_zero j)) (by decide)⟩

/-- C5: the job-status query on the submitted job precedes the single
result retrieval on that job, and the recorded status it reported is
DONE, job has successfully run. -/
theorem c5_status_query_before_result :
    Stmt.jobStatus JobRef.submitted ∈ notebookStmts ∧
    notebookStmts.count (Stmt.jobResult JobRef.submitted) = 1 ∧
    notebookStmts.findIdx (fun s => s == Stmt.jobStatus JobRef.submitted) <
      notebookStmts.findIdx (fun s => s == Stmt.jobResult JobRef.submitted) ∧
    recordedJobStatus = "DONE" ∧
    recordedJobStatusMsg = "job has successfully run" := by
  decide

/-- C6: the saving statement is the only statement that writes to the
file system, and a full notebook run leaves every file other than the
results file exactly as it was. -/
theorem c6_sole_observable_artifact :
    notebookStmts.filter Stmt.writesFS = [Stmt.saveResultsJson OpenMode.w] ∧
    ∀ (r : ResultObj) (fs : FS) (nm : String),
      nm ≠ resultsFileName r → runNotebookFS r fs nm = fs nm := by
  refine ⟨by decide, ?_⟩
  intro r fs nm hnm
  show openDump OpenMode.w (resultsFileName r)
    (jsonOfCounts (ResultObj.get_counts r)) fs nm = fs nm
  simp [openDump, hnm]

/-- Witness for C6 at the recorded result and a file unrelated to the
results file. -/
theorem c6_sole_observable_artifact_witness :
    notebookStmts.filter Stmt.writesFS = [Stmt.saveResultsJson OpenMode.w] ∧
    runNotebookFS recordedResult fs0 "notes.txt" = fs0 "notes.txt" :=
  ⟨c6_sole_observable_artifact.1,
   c6_sole_observable_artifact.2 recordedResult fs0 "notes.txt" (by decide)⟩

/-- C7: no notebook statement reads any environment variable, so the
environment observation trace of the notebook code is identical under
any two environments; in particular QUANTINUUM_API_KEY is never read
by the notebook code itself. -/
theorem c7_env_noninterference :
    notebookStmts.all (fun s => (Stmt.envReads s).isEmpty) = true ∧
    ∀ env1 env2 : String → Option String,
      notebookEnvTrace env1 = notebookEnvTrace env2 := by
  refine ⟨by decide, ?_⟩
  intro env1 env2
  rfl

/-- C9 as stated is false: the circuit the notebook builds and submits
has 4 classical bits, not 2, because measure_all adds a 2-bit meas
register next to the 2-bit c register from the constructor, as the
recorded circuit drawing shows. -/
theorem c9_counterexample : bellCircuit.numClbits ≠ 2 := by
  decide

/-- C9 amended: the circuit has exactly 2 qubits and 4 classical bits
in registers c and meas of 2 bits each, and its operations are exactly
one Hadamard on qubit 0, one CX with control 0 and target 1, then the
barrier and the measurements of qubits 0 and 1 into the meas bits
appended by measure_all, and nothing else. -/
theorem c9_amended_circuit_structure :
    bellCircuit.numQubits = 2 ∧
    bellCircuit.cregs = [("c", 2), ("meas", 2)] ∧
    bellCircuit.numClbits = 4 ∧
    bellCircuit.name = "Bell Test" ∧
    bellCircuit.ops = [CircOp.h 0, CircOp.cx 0 1, CircOp.barrier,
      CircOp.measure 0 "meas" 0, CircOp.measure 1 "meas" 1] := by
  decide

/-- C10: the saving statement opens the results file in write mode,
and when that file already exists its old contents are discarded and
fully replaced by the fresh counts serialization, whereas append mode
would have kept the old contents in front. -/
theorem c10_write_mode_truncates (r : ResultObj) (fs : FS) (old : String)
    (hold : fs (resultsFileName r) = some old) :
    notebookStmts.contains (Stmt.saveResultsJson OpenMode.w) = true ∧
    runNotebookFS r fs (resultsFileName r)
      = some (jsonOfCounts (ResultObj.get_counts r)) ∧
    openDump OpenMode.a (resultsFileName r)
        (jsonOfCounts (ResultObj.get_counts r)) fs (resultsFileName r)
      = some (old ++ jsonOfCounts (ResultObj.get_counts r)) := by
  refine ⟨by decide, ?_, ?_⟩
  · show openDump OpenMode.w (resultsFileName r)
      (jsonOfCounts (ResultObj.get_counts r)) fs (resultsFileName r) = _
    simp [openDump]
  · simp [openDump, hold]

/-- Witness for C10 at the recorded result over a file system where
the results file already holds stale contents. -/
theorem c10_write_mode_truncates_witness :
    notebookStmts.contains (Stmt.saveResultsJson OpenMode.w) = true ∧
    runNotebookFS recordedResult fs1 (resultsFileName recordedResult)
      = some (jsonOfCounts (ResultObj.get_counts recordedResult)) ∧
    openDump OpenMode.a (resultsFileName recordedResult)
        (jsonOfCounts (ResultObj.get_counts recordedResult)) fs1
        (resultsFileName recordedResult)
      = some ("stale" ++ jsonOfCounts (ResultObj.get_counts recordedResult)) :=
  c10_write_mode_truncates recordedResult fs1 "stale" (by decide)

end QuantinuumNotebook
